import Mathlib

/-!
Verification of the cross-border payments core: a shallow embedding of the
payment orchestration engine (`src/services/PaymentProcessor.ts`), the webhook
delivery subsystem (`src/services/WebhookService.ts`) and the signature engine
(`src/infrastructure/crypto.ts`), together with theorems settling the frozen
claims about them.

Modelling conventions:
* The provider calls (`MockStripeProvider.createCharge`, `refundCharge`,
  `MockOfframpProvider.createTransfer`) and the in-process conversion step draw
  their success/failure from `Math.random()`; those draws, together with the
  generated charge/transfer identifiers, are supplied by a `ProviderOracle`
  record so each concrete oracle corresponds to one resolved run.
* Database writes (`payment.update`, `paymentEvent.create`) and provider calls
  are collected in an explicit `Effect` trace; wall-clock durations and log
  output are not modelled.
* HMAC-SHA256 (`crypto.createHmac`, an external Node primitive, not code of
  this repository) is a parameter `hmac : String → String → String` of the
  signature-engine functions.
-/

namespace CBP

/-- `PaymentStatus` enum from `src/types/index.ts`. -/
inductive PaymentStatus where
  | PENDING
  | PROCESSING
  | COMPLETED
  | FAILED
  | CANCELLED
deriving DecidableEq, Repr

/-- Status literal of a `ProcessingStep` ('completed' | 'failed' | 'skipped',
`src/services/PaymentProcessor.ts`). -/
inductive StepStatus where
  | completed
  | failed
  | skipped
deriving DecidableEq, Repr

/-- One entry of the `steps` array built by `PaymentProcessor.processPayment`
(step name, outcome, optional error; durations are not modelled). -/
structure ProcessingStep where
  step : String
  status : StepStatus
  error : Option String
deriving DecidableEq, Repr

/-- Observable side effects of a `processPayment` run: provider calls
(`stripeProvider.createCharge`, `offrampProvider.createTransfer`,
`stripeProvider.refundCharge`), the `payment.update` status write and the
`paymentEvent.create` status-changed record performed by
`updatePaymentStatus`, and webhook emissions (`sendPaymentWebhook`). -/
inductive Effect where
  | createCharge (paymentId : String)
  | createTransfer (paymentId : String)
  | refundCharge (chargeId : String)
  | statusWrite (newStatus : PaymentStatus)
  | eventRecord (oldStatus newStatus : PaymentStatus)
  | emitWebhook (eventType : String)
deriving DecidableEq, Repr

/-- Resolution of every random draw and generated identifier an orchestration
run can consume (success rates and id generation in
`MockStripeProvider`/`MockOfframpProvider` and the conversion step). -/
structure ProviderOracle where
  onrampOk : Bool
  chargeId : String
  onrampError : String
  conversionOk : Bool
  conversionError : String
  offrampOk : Bool
  transferId : String
  offrampError : String
  refundOk : Bool
  refundId : String
deriving DecidableEq, Repr

/-- Result object of `PaymentProcessor.processPayment`
(`ProcessPaymentResult`; `processingTime` is not modelled). -/
structure ProcessResult where
  success : Bool
  paymentId : String
  status : PaymentStatus
  error : Option String
  steps : List ProcessingStep
deriving DecidableEq, Repr

/-- `PaymentProcessor.updatePaymentStatus` (lines 410-470): checks that the
payment exists (`findUnique`), then inside a transaction re-reads the current
payment and UNCONDITIONALLY updates `status` to the requested value, recording
a `status_changed` `paymentEvent` with the old and new status.  The write is
not conditioned on the current status.  Returns the new stored status and the
effects performed; throws (`Except.error`) only when the payment is missing. -/
def updatePaymentStatus (payment : Option PaymentStatus) (status : PaymentStatus) :
    Except String (PaymentStatus × List Effect) :=
  match payment with
  | none => Except.error "Payment not found"
  | some current =>
      Except.ok (status, [Effect.statusWrite status, Effect.eventRecord current status])

/-- `PaymentProcessor.processOnramp`: calls `stripeProvider.createCharge` and
returns the step record ('completed' with the charge id in `details`, or
'failed' with the provider error). The charge call itself is an effect in
either case. -/
def processOnramp (o : ProviderOracle) (paymentId : String) :
    ProcessingStep × List Effect :=
  if o.onrampOk then
    ({ step := "onramp_stripe", status := StepStatus.completed, error := none },
     [Effect.createCharge paymentId])
  else
    ({ step := "onramp_stripe", status := StepStatus.failed, error := some o.onrampError },
     [Effect.createCharge paymentId])

/-- `PaymentProcessor.processCurrencyConversion`: simulated in-process (no
provider call); succeeds or fails according to the random draw. -/
def processCurrencyConversion (o : ProviderOracle) : ProcessingStep :=
  if o.conversionOk then
    { step := "currency_conversion", status := StepStatus.completed, error := none }
  else
    { step := "currency_conversion", status := StepStatus.failed, error := some o.conversionError }

/-- `PaymentProcessor.processOfframp`: calls `offrampProvider.createTransfer`
and returns the step record. -/
def processOfframp (o : ProviderOracle) (paymentId : String) :
    ProcessingStep × List Effect :=
  if o.offrampOk then
    ({ step := "offramp_transfer", status := StepStatus.completed, error := none },
     [Effect.createTransfer paymentId])
  else
    ({ step := "offramp_transfer", status := StepStatus.failed, error := some o.offrampError },
     [Effect.createTransfer paymentId])

/-- `PaymentProcessor.refundOnramp` (lines 387-407): calls
`stripeProvider.refundCharge(chargeId)` and only logs the outcome; it never
throws and the payment flow does not depend on whether the refund succeeded.
The observable effect is the single reversal attempt. -/
def refundOnramp (_o : ProviderOracle) (chargeId : String) : List Effect :=
  [Effect.refundCharge chargeId]

/-- Printable status name, used in the thrown status-conflict message. -/
def statusName : PaymentStatus → String
  | PaymentStatus.PENDING => "PENDING"
  | PaymentStatus.PROCESSING => "PROCESSING"
  | PaymentStatus.COMPLETED => "COMPLETED"
  | PaymentStatus.FAILED => "FAILED"
  | PaymentStatus.CANCELLED => "CANCELLED"

/-- `PaymentProcessor.processPayment` (lines 35-185), over the stored status of
the one payment being processed (`none` = payment row absent).  Returns the
result (or the thrown error), the stored status afterwards, and the effect
trace.  Mirrors the source: read payment (`findUnique`), reject unless status
is PENDING (throw, nothing persisted), update to PROCESSING, onramp, currency
conversion (refunding the onramp charge on failure), offramp (refunding the
onramp charge on failure), final COMPLETED update.  The in-memory `steps`
array is returned only on the non-throwing paths, as in the source. -/
def processPayment (o : ProviderOracle) (paymentId : String)
    (payment : Option PaymentStatus) :
    Except String ProcessResult × Option PaymentStatus × List Effect :=
  match payment with
  | none => (Except.error "Payment not found", none, [])
  | some st =>
    if st = PaymentStatus.PENDING then
      match updatePaymentStatus (some st) PaymentStatus.PROCESSING with
      | Except.error e => (Except.error e, some st, [])
      | Except.ok (st1, eff1) =>
        let steps1 : List ProcessingStep :=
          [{ step := "validate_payment", status := StepStatus.completed, error := none },
           { step := "update_status_processing", status := StepStatus.completed, error := none }]
        let onramp := processOnramp o paymentId
        let steps2 := steps1 ++ [onramp.1]
        if onramp.1.status = StepStatus.failed then
          match updatePaymentStatus (some st1) PaymentStatus.FAILED with
          | Except.error e => (Except.error e, some st1, eff1 ++ onramp.2)
          | Except.ok (st2, eff2) =>
            (Except.ok { success := false, paymentId := paymentId,
                         status := PaymentStatus.FAILED, error := onramp.1.error,
                         steps := steps2 },
             some st2, eff1 ++ onramp.2 ++ eff2)
        else
          let convStep := processCurrencyConversion o
          let steps3 := steps2 ++ [convStep]
          if convStep.status = StepStatus.failed then
            let effRef := refundOnramp o o.chargeId
            match updatePaymentStatus (some st1) PaymentStatus.FAILED with
            | Except.error e => (Except.error e, some st1, eff1 ++ onramp.2 ++ effRef)
            | Except.ok (st2, eff2) =>
              (Except.ok { success := false, paymentId := paymentId,
                           status := PaymentStatus.FAILED, error := convStep.error,
                           steps := steps3 },
               some st2, eff1 ++ onramp.2 ++ effRef ++ eff2)
          else
            let offramp := processOfframp o paymentId
            let steps4 := steps3 ++ [offramp.1]
            if offramp.1.status = StepStatus.failed then
              let effRef := refundOnramp o o.chargeId
              match updatePaymentStatus (some st1) PaymentStatus.FAILED with
              | Except.error e => (Except.error e, some st1, eff1 ++ onramp.2 ++ offramp.2 ++ effRef)
              | Except.ok (st2, eff2) =>
                (Except.ok { success := false, paymentId := paymentId,
                             status := PaymentStatus.FAILED, error := offramp.1.error,
                             steps := steps4 },
                 some st2, eff1 ++ onramp.2 ++ offramp.2 ++ effRef ++ eff2)
            else
              match updatePaymentStatus (some st1) PaymentStatus.COMPLETED with
              | Except.error e => (Except.error e, some st1, eff1 ++ onramp.2 ++ offramp.2)
              | Except.ok (st2, eff2) =>
                (Except.ok { success := true, paymentId := paymentId,
                             status := PaymentStatus.COMPLETED, error := none,
                             steps := steps4 },
                 some st2, eff1 ++ onramp.2 ++ offramp.2 ++ eff2)
    else
      (Except.error ("Payment status is " ++ statusName st ++ ", expected PENDING"),
       some st, [])

/-- Status transitions recorded as `status_changed` payment events in a trace. -/
def transitions : List Effect → List (PaymentStatus × PaymentStatus)
  | [] => []
  | Effect.eventRecord a b :: es => (a, b) :: transitions es
  | _ :: es => transitions es

/-- Charge references of the `refundCharge` reversal attempts in a trace. -/
def refundAttempts : List Effect → List String
  | [] => []
  | Effect.refundCharge c :: es => c :: refundAttempts es
  | _ :: es => refundAttempts es

/-- Webhook event types emitted in a trace. -/
def emittedWebhooks : List Effect → List String
  | [] => []
  | Effect.emitWebhook t :: es => t :: emittedWebhooks es
  | _ :: es => emittedWebhooks es

/-- New statuses written by `payment.update` in a trace. -/
def statusWrites : List Effect → List PaymentStatus
  | [] => []
  | Effect.statusWrite s :: es => s :: statusWrites es
  | _ :: es => statusWrites es

/-- The transition graph of the specification:
PENDING→PROCESSING→{COMPLETED, FAILED}. -/
def allowedTransition : PaymentStatus → PaymentStatus → Bool
  | PaymentStatus.PENDING, PaymentStatus.PROCESSING => true
  | PaymentStatus.PROCESSING, PaymentStatus.COMPLETED => true
  | PaymentStatus.PROCESSING, PaymentStatus.FAILED => true
  | _, _ => false

end CBP

namespace CBP

/-- Oracle with every provider call succeeding. -/
def oracleAllOk : ProviderOracle :=
  { onrampOk := true, chargeId := "ch_ok", onrampError := "", conversionOk := true,
    conversionError := "", offrampOk := true, transferId := "tx_ok", offrampError := "",
    refundOk := true, refundId := "re_ok" }

/-- Oracle where collection succeeds and conversion fails (refund draw fails
too, showing the reversal attempt is recorded regardless of its outcome). -/
def oracleConvFail : ProviderOracle :=
  { onrampOk := true, chargeId := "ch_1", onrampError := "", conversionOk := false,
    conversionError := "rate_expired", offrampOk := true, transferId := "tx_1",
    offrampError := "", refundOk := false, refundId := "re_1" }

/-- C1 (counterexample): the status writer used for the PENDING→PROCESSING step
(`updatePaymentStatus`) is NOT an atomic check-and-set conditioned on the
current status being PENDING: applied to a payment whose stored status is
COMPLETED it still succeeds and writes PROCESSING, recording the transition
COMPLETED→PROCESSING, which is outside the allowed graph. -/
theorem updatePaymentStatus_not_conditioned_on_pending :
    updatePaymentStatus (some PaymentStatus.COMPLETED) PaymentStatus.PROCESSING =
      Except.ok (PaymentStatus.PROCESSING,
        [Effect.statusWrite PaymentStatus.PROCESSING,
         Effect.eventRecord PaymentStatus.COMPLETED PaymentStatus.PROCESSING]) ∧
    allowedTransition PaymentStatus.COMPLETED PaymentStatus.PROCESSING = false :=
  ⟨rfl, rfl⟩

/-- C1 (amended): in every single `processPayment` run the recorded status
transitions follow PENDING→PROCESSING→{COMPLETED, FAILED} only; however the
PENDING→PROCESSING step is a separate status read followed by an unconditional
write: `updatePaymentStatus` succeeds and writes PROCESSING from every current
status, so it is not an atomic check-and-set. -/
theorem processPayment_transitions_allowed_write_unconditional
    (o : ProviderOracle) (paymentId : String) (payment : Option PaymentStatus) :
    ((transitions (processPayment o paymentId payment).2.2).all
        fun p => allowedTransition p.1 p.2) = true ∧
    ∀ s : PaymentStatus,
      updatePaymentStatus (some s) PaymentStatus.PROCESSING =
        Except.ok (PaymentStatus.PROCESSING,
          [Effect.statusWrite PaymentStatus.PROCESSING,
           Effect.eventRecord s PaymentStatus.PROCESSING]) := by
  refine ⟨?_, fun s => rfl⟩
  match payment with
  | none => rfl
  | some st =>
    cases st <;> cases honr : o.onrampOk <;> cases hconv : o.conversionOk <;>
      cases hoff : o.offrampOk <;>
      simp [processPayment, updatePaymentStatus, processOnramp, processCurrencyConversion,
        processOfframp, refundOnramp, transitions, allowedTransition, honr, hconv, hoff]

/-- C2: whenever the collection (onramp) step succeeds and a later step
(conversion or disbursement) fails, exactly one reversal attempt referencing
the collection charge reference is recorded — regardless of whether the
reversal draw itself succeeds — and the payment ends FAILED. -/
theorem collection_success_later_failure_one_reversal
    (o : ProviderOracle) (paymentId : String)
    (h1 : o.onrampOk = true) (h2 : o.conversionOk = false ∨ o.offrampOk = false) :
    refundAttempts (processPayment o paymentId (some PaymentStatus.PENDING)).2.2 =
      [o.chargeId] ∧
    (processPayment o paymentId (some PaymentStatus.PENDING)).2.1 =
      some PaymentStatus.FAILED := by
  rcases h2 with h2 | h2
  · simp [processPayment, updatePaymentStatus, processOnramp, processCurrencyConversion,
      refundOnramp, refundAttempts, h1, h2]
  · cases hconv : o.conversionOk <;>
      simp [processPayment, updatePaymentStatus, processOnramp, processCurrencyConversion,
        processOfframp, refundOnramp, refundAttempts, h1, h2, hconv]

/-- Witness for C2 at a concrete oracle (conversion fails, refund draw fails). -/
theorem collection_success_later_failure_one_reversal_witness :
    oracleConvFail.onrampOk = true ∧
    (oracleConvFail.conversionOk = false ∨ oracleConvFail.offrampOk = false) ∧
    refundAttempts (processPayment oracleConvFail "pay_1" (some PaymentStatus.PENDING)).2.2 =
      ["ch_1"] ∧
    (processPayment oracleConvFail "pay_1" (some PaymentStatus.PENDING)).2.1 =
      some PaymentStatus.FAILED := by
  refine ⟨rfl, Or.inl rfl, ?_⟩
  exact collection_success_later_failure_one_reversal oracleConvFail "pay_1" rfl (Or.inl rfl)

/-- C4 (counterexample): a fully successful `processPayment` run enters
PROCESSING and reaches COMPLETED (both transitions are recorded as
`status_changed` payment events) yet emits no webhook events at all:
`processPayment` never calls `sendPaymentWebhook`. -/
theorem processPayment_emits_no_webhooks_counterexample :
    Effect.eventRecord PaymentStatus.PENDING PaymentStatus.PROCESSING ∈
      (processPayment oracleAllOk "pay_1" (some PaymentStatus.PENDING)).2.2 ∧
    Effect.eventRecord PaymentStatus.PROCESSING PaymentStatus.COMPLETED ∈
      (processPayment oracleAllOk "pay_1" (some PaymentStatus.PENDING)).2.2 ∧
    emittedWebhooks (processPayment oracleAllOk "pay_1" (some PaymentStatus.PENDING)).2.2 =
      [] := by
  decide

/-- C4 (amended): `processPayment` itself emits no webhook events on any run;
every status transition is instead recorded as a `status_changed` payment
event, one per status write (the PAYMENT_* webhooks are sent only by the
inbound provider-webhook route handlers, outside `processPayment`). -/
theorem processPayment_no_webhooks_events_recorded
    (o : ProviderOracle) (paymentId : String) (payment : Option PaymentStatus) :
    emittedWebhooks (processPayment o paymentId payment).2.2 = [] ∧
    statusWrites (processPayment o paymentId payment).2.2 =
      (transitions (processPayment o paymentId payment).2.2).map Prod.snd := by
  match payment with
  | none => exact ⟨rfl, rfl⟩
  | some st =>
    cases st <;> cases honr : o.onrampOk <;> cases hconv : o.conversionOk <;>
      cases hoff : o.offrampOk <;>
      simp [processPayment, updatePaymentStatus, processOnramp, processCurrencyConversion,
        processOfframp, refundOnramp, emittedWebhooks, statusWrites, transitions,
        honr, hconv, hoff]

/-- C6: when the payment row is absent or its status is not PENDING,
`processPayment` throws (state-conflict rejection) with zero side effects: no
effect at all is performed (no provider call, no status write, no event
record) and the stored status is unchanged. -/
theorem processPayment_rejects_non_pending
    (o : ProviderOracle) (paymentId : String) (payment : Option PaymentStatus)
    (h : payment ≠ some PaymentStatus.PENDING) :
    (∃ e, (processPayment o paymentId payment).1 = Except.error e) ∧
    (processPayment o paymentId payment).2.1 = payment ∧
    (processPayment o paymentId payment).2.2 = [] := by
  match payment with
  | none => exact ⟨⟨"Payment not found", rfl⟩, rfl, rfl⟩
  | some st =>
    have hst : st ≠ PaymentStatus.PENDING := by rintro rfl; exact h rfl
    cases st
    · exact absurd rfl hst
    all_goals exact ⟨⟨_, rfl⟩, rfl, rfl⟩

/-- Witness for C6 at a concrete non-PENDING payment. -/
theorem processPayment_rejects_non_pending_witness :
    (some PaymentStatus.COMPLETED ≠ some PaymentStatus.PENDING) ∧
    ((∃ e, (processPayment oracleAllOk "pay_1" (some PaymentStatus.COMPLETED)).1 =
        Except.error e) ∧
     (processPayment oracleAllOk "pay_1" (some PaymentStatus.COMPLETED)).2.1 =
       some PaymentStatus.COMPLETED ∧
     (processPayment oracleAllOk "pay_1" (some PaymentStatus.COMPLETED)).2.2 = []) :=
  ⟨by decide,
   processPayment_rejects_non_pending oracleAllOk "pay_1"
     (some PaymentStatus.COMPLETED) (by decide)⟩

/-- C7: when the collection (onramp) step fails, no reversal attempt is
recorded and the payment ends FAILED. -/
theorem collection_failure_no_reversal
    (o : ProviderOracle) (paymentId : String) (h : o.onrampOk = false) :
    refundAttempts (processPayment o paymentId (some PaymentStatus.PENDING)).2.2 = [] ∧
    (processPayment o paymentId (some PaymentStatus.PENDING)).2.1 =
      some PaymentStatus.FAILED := by
  simp [processPayment, updatePaymentStatus, processOnramp, refundAttempts, h]

/-- Oracle whose collection draw fails. -/
def oracleOnrampFail : ProviderOracle :=
  { onrampOk := false, chargeId := "ch_2", onrampError := "card_declined",
    conversionOk := true, conversionError := "", offrampOk := true, transferId := "tx_2",
    offrampError := "", refundOk := true, refundId := "re_2" }

/-- Witness for C7 at a concrete oracle. -/
theorem collection_failure_no_reversal_witness :
    oracleOnrampFail.onrampOk = false ∧
    refundAttempts (processPayment oracleOnrampFail "pay_2" (some PaymentStatus.PENDING)).2.2 =
      [] ∧
    (processPayment oracleOnrampFail "pay_2" (some PaymentStatus.PENDING)).2.1 =
      some PaymentStatus.FAILED :=
  ⟨rfl, collection_failure_no_reversal oracleOnrampFail "pay_2" rfl⟩

end CBP

namespace CBP

/-- `WebhookService.maxRetries` (line 34). -/
def maxRetries : Nat := 5

/-- `WebhookService.retryDelays` (line 35): 1s, 5s, 15s, 1m, 5m in ms. -/
def retryDelays : List Nat := [1000, 5000, 15000, 60000, 300000]

/-- `WebhookService.maxPayloadSize` (line 37): 1 MiB. -/
def maxPayloadSize : Nat := 1024 * 1024

/-- The retry delay chosen in `handleWebhookFailure` (line 254):
`retryDelays[attemptNumber - 1]`, falling back to the last entry (300000) when
the index is out of range. -/
def retryDelay (attemptNumber : Nat) : Nat :=
  (retryDelays.get? (attemptNumber - 1)).getD 300000

/-- A `WebhookDeliveryAttempt` record as persisted by `recordWebhookDelivery`
(identifier, payload and timestamps not modelled; `nextRetryAt` is kept as the
relative delay in ms rather than an absolute date). -/
structure DeliveryAttemptRec where
  attemptNumber : Nat
  httpStatus : Option Nat
  error : Option String
  delivered : Bool
  nextRetryAt : Option Nat
deriving DecidableEq, Repr

/-- The failed `WebhookDeliveryAttempt` record built by `handleWebhookFailure`
(lines 229-290): `nextRetryAt` is set exactly when `attemptNumber < maxRetries`. -/
def failureRecord (attemptNumber : Nat) (error : String) (httpStatus : Option Nat) :
    DeliveryAttemptRec :=
  { attemptNumber := attemptNumber, httpStatus := httpStatus, error := some error,
    delivered := false,
    nextRetryAt := if attemptNumber < maxRetries then some (retryDelay attemptNumber) else none }

/-- The successful delivery record stored by `deliverWebhook` on a 2xx
response (lines 188-199). -/
def successRecord (attemptNumber status : Nat) : DeliveryAttemptRec :=
  { attemptNumber := attemptNumber, httpStatus := some status, error := none,
    delivered := true, nextRetryAt := none }

/-- Observables of one delivery chain: the persisted attempt records, the
attempt numbers at which an HTTP request was actually issued (`axios.post`),
and the retry delays passed to `setTimeout`. -/
structure WebhookOutcome where
  records : List DeliveryAttemptRec
  httpRequests : List Nat
  scheduledDelays : List Nat
deriving DecidableEq, Repr

/-- Outcome of the body of `deliverWebhook` (lines 141-227) for a single
attempt, before retry handling: the record persisted and whether the HTTP
request was made.  `resp` is the endpoint's behaviour for this attempt
(`none` = network/timeout error, `some s` = HTTP status `s`).  An oversized
payload throws before `axios.post` (line 152), so no request is made and the
catch block routes it to the failure handler with no HTTP status. -/
def attemptOutcome (payloadSize : Nat) (resp : Option Nat) (attemptNumber : Nat) :
    DeliveryAttemptRec × Bool :=
  if payloadSize > maxPayloadSize then
    (failureRecord attemptNumber "Webhook payload too large" none, false)
  else
    match resp with
    | some status =>
      if 200 ≤ status && status < 300 then
        (successRecord attemptNumber status, true)
      else
        (failureRecord attemptNumber ("HTTP " ++ toString status) (some status), true)
    | none =>
      (failureRecord attemptNumber "network error" none, true)

/-- `WebhookService.deliverWebhook` together with its retry loop through
`handleWebhookFailure`/`setTimeout`: on failure with `attemptNumber <
maxRetries` a retry is scheduled after `retryDelay attemptNumber` and the next
attempt runs; otherwise the delivery is permanently failed.  `fuel` bounds the
recursion; every entry point supplies at least `maxRetries`, which the
attempt-number guard makes sufficient, so the fuel-exhausted branch is never
reached from `webhookRun`. -/
def deliverWebhook (payloadSize : Nat) (respond : Nat → Option Nat) :
    Nat → Nat → WebhookOutcome
  | attemptNumber, 0 =>
    let ro := attemptOutcome payloadSize (respond attemptNumber) attemptNumber
    let reqs := if ro.2 then [attemptNumber] else []
    if ro.1.delivered then
      { records := [ro.1], httpRequests := reqs, scheduledDelays := [] }
    else if attemptNumber < maxRetries then
      { records := [ro.1], httpRequests := reqs,
        scheduledDelays := [retryDelay attemptNumber] }
    else
      { records := [ro.1], httpRequests := reqs, scheduledDelays := [] }
  | attemptNumber, fuel + 1 =>
    let ro := attemptOutcome payloadSize (respond attemptNumber) attemptNumber
    let reqs := if ro.2 then [attemptNumber] else []
    if ro.1.delivered then
      { records := [ro.1], httpRequests := reqs, scheduledDelays := [] }
    else if attemptNumber < maxRetries then
      let rest := deliverWebhook payloadSize respond (attemptNumber + 1) fuel
      { records := ro.1 :: rest.records,
        httpRequests := reqs ++ rest.httpRequests,
        scheduledDelays := retryDelay attemptNumber :: rest.scheduledDelays }
    else
      { records := [ro.1], httpRequests := reqs, scheduledDelays := [] }

/-- A full delivery chain as started by `sendPaymentWebhook`: first attempt
number 1 (`deliverWebhook` default parameter). -/
def webhookRun (payloadSize : Nat) (respond : Nat → Option Nat) : WebhookOutcome :=
  deliverWebhook payloadSize respond 1 maxRetries

/-- An endpoint answering HTTP 500 to every request. -/
def respond500 : Nat → Option Nat := fun _ => some 500

end CBP

namespace CBP

/-- C3 (counterexample): for an endpoint answering HTTP 500 to every request,
only FOUR retries are ever scheduled (after 1000, 5000, 15000 and 60000 ms):
attempt 5 reaches the `attemptNumber < maxRetries` guard and is permanently
failed, so the 300000 ms entry of `retryDelays` is never used. -/
theorem webhook_retry_delays_counterexample :
    (webhookRun 10 respond500).scheduledDelays = [1000, 5000, 15000, 60000] ∧
    (webhookRun 10 respond500).scheduledDelays ≠ [1000, 5000, 15000, 60000, 300000] ∧
    300000 ∉ (webhookRun 10 respond500).scheduledDelays := by
  decide

/-- C3 (amended): an endpoint failing with HTTP 500 on every attempt yields
exactly 5 delivery-attempt records with strictly increasing attempt numbers
1..5; the four retries are scheduled after 1000, 5000, 15000 and 60000 ms
respectively (`nextRetryAt` mirrors those delays); after the 5th attempt the
delivery is permanently failed (`nextRetryAt = none`) and no further attempt
is made. -/
theorem webhook_failing_endpoint_five_attempts
    (payloadSize : Nat) (h : payloadSize ≤ maxPayloadSize) :
    (webhookRun payloadSize respond500).records.map DeliveryAttemptRec.attemptNumber =
      [1, 2, 3, 4, 5] ∧
    (webhookRun payloadSize respond500).records.map DeliveryAttemptRec.delivered =
      [false, false, false, false, false] ∧
    (webhookRun payloadSize respond500).records.map DeliveryAttemptRec.nextRetryAt =
      [some 1000, some 5000, some 15000, some 60000, none] ∧
    (webhookRun payloadSize respond500).scheduledDelays = [1000, 5000, 15000, 60000] := by
  have hns : ¬ (payloadSize > maxPayloadSize) := by omega
  simp [webhookRun, deliverWebhook, attemptOutcome, respond500, failureRecord,
    successRecord, retryDelay, retryDelays, maxRetries, hns]

/-- Witness for C3 (amended) at a concrete payload size. -/
theorem webhook_failing_endpoint_five_attempts_witness :
    10 ≤ maxPayloadSize ∧
    (webhookRun 10 respond500).records.map DeliveryAttemptRec.attemptNumber =
      [1, 2, 3, 4, 5] ∧
    (webhookRun 10 respond500).records.map DeliveryAttemptRec.delivered =
      [false, false, false, false, false] ∧
    (webhookRun 10 respond500).records.map DeliveryAttemptRec.nextRetryAt =
      [some 1000, some 5000, some 15000, some 60000, none] ∧
    (webhookRun 10 respond500).scheduledDelays = [1000, 5000, 15000, 60000] :=
  ⟨by decide, webhook_failing_endpoint_five_attempts 10 (by decide)⟩

/-- C8: when the serialized payload exceeds 1 MiB, `deliverWebhook` throws
before `axios.post` on every attempt, so no HTTP request is ever issued —
whatever the endpoint would answer and whatever the attempt number. -/
theorem oversized_payload_never_sent
    (payloadSize : Nat) (respond : Nat → Option Nat) (attemptNumber fuel : Nat)
    (h : payloadSize > maxPayloadSize) :
    (deliverWebhook payloadSize respond attemptNumber fuel).httpRequests = [] := by
  induction fuel generalizing attemptNumber with
  | zero =>
    simp [deliverWebhook, attemptOutcome, failureRecord, h]
    split <;> rfl
  | succ fuel ih =>
    simp [deliverWebhook, attemptOutcome, failureRecord, h, ih]
    split <;> rfl

/-- Witness for C8 at a concrete oversized payload. -/
theorem oversized_payload_never_sent_witness :
    1048577 > maxPayloadSize ∧
    (deliverWebhook 1048577 respond500 1 5).httpRequests = [] :=
  ⟨by decide, oversized_payload_never_sent 1048577 respond500 1 5 (by decide)⟩

/-- C10: an oversized payload goes through the same failure path as a network
error: a failed delivery attempt (error "Webhook payload too large", no HTTP
status) is recorded on each of the 5 attempts, retries of the identical
payload are scheduled after 1000, 5000, 15000 and 60000 ms until the
5-attempt ceiling is exhausted, and no HTTP request is ever made — the
delivery is not terminally rejected on the first attempt. -/
theorem oversized_payload_retried_to_ceiling (respond : Nat → Option Nat) :
    (webhookRun 1048577 respond).records.map DeliveryAttemptRec.attemptNumber =
      [1, 2, 3, 4, 5] ∧
    (webhookRun 1048577 respond).records.map DeliveryAttemptRec.delivered =
      [false, false, false, false, false] ∧
    (webhookRun 1048577 respond).records.map DeliveryAttemptRec.error =
      [some "Webhook payload too large", some "Webhook payload too large",
       some "Webhook payload too large", some "Webhook payload too large",
       some "Webhook payload too large"] ∧
    (webhookRun 1048577 respond).httpRequests = [] ∧
    (webhookRun 1048577 respond).scheduledDelays = [1000, 5000, 15000, 60000] := by
  simp [webhookRun, deliverWebhook, attemptOutcome, failureRecord, retryDelay,
    retryDelays, maxRetries, maxPayloadSize]

end CBP

namespace CBP

/-- JS `parseInt` as applied to the `X-Webhook-Timestamp` value in
`WebhookSecurity.verifySignature` (crypto.ts line 26): the value of the
longest leading run of decimal digits, `none` modelling `NaN` (no leading
digit).  Sign, whitespace and radix prefixes, which Unix-second timestamps
never carry, are not modelled. -/
def parseIntJS (s : String) : Option Nat :=
  let ds := s.data.takeWhile Char.isDigit
  if ds.isEmpty then none
  else some (ds.foldl (fun acc c => 10 * acc + (c.toNat - 48)) 0)

/-- The decimal digit character for `d < 10` ('0' has code 48). -/
def digitChar (d : Nat) : Char := Char.ofNat (48 + d)

/-- Decimal digits of `n`, most significant first; fuel-bounded recursion
(`natToString` supplies sufficient fuel, so the 0-fuel branch is unreachable
there). -/
def natToCharsAux : Nat → Nat → List Char
  | 0, _ => []
  | fuel + 1, n =>
    if n < 10 then [digitChar n]
    else natToCharsAux fuel (n / 10) ++ [digitChar (n % 10)]

/-- JS `Number.prototype.toString` for the nonnegative integers used as
webhook timestamps (`Math.floor(Date.now() / 1000).toString()`). -/
def natToString (n : Nat) : String := String.mk (natToCharsAux (n + 1) n)

/-- `WebhookSecurity.constantTimeCompare` (crypto.ts lines 66-77): reject on
length mismatch, otherwise OR together the XORs of the code points and accept
iff the accumulator is zero. -/
def constantTimeCompare (a b : String) : Bool :=
  if a.length ≠ b.length then false
  else
    ((a.data.zip b.data).foldl (fun result p => result ||| (p.1.toNat ^^^ p.2.toNat)) 0) == 0

/-- Structured result of `WebhookSecurity.verifySignature`. -/
structure VerifyResult where
  isValid : Bool
  error : Option String
deriving DecidableEq, Repr

/-- `WebhookSecurity.generateSignature`: hex HMAC-SHA256 of the payload under
the secret; the HMAC primitive (`crypto.createHmac`, an external Node module)
is the `hmac` parameter. -/
def generateSignature (hmac : String → String → String) (payload secret : String) : String :=
  hmac payload secret

/-- `WebhookSecurity.verifySignature` (crypto.ts lines 16-63).  In JS,
`parseInt` yields `NaN` on a non-numeric timestamp and
`Math.abs(now - NaN) > tolerance` is then false, so the staleness rejection
is skipped — modelled by the `none` branch of the match. -/
def verifySignature (hmac : String → String → String) (currentTime : Nat)
    (payload signature secret timestamp : String) (toleranceSeconds : Nat) : VerifyResult :=
  let staleRejected : Bool :=
    match parseIntJS timestamp with
    | some webhookTime =>
        decide (toleranceSeconds < ((currentTime : Int) - (webhookTime : Int)).natAbs)
    | none => false
  if staleRejected then
    { isValid := false, error := some "Webhook timestamp too old" }
  else
    let signedPayload := timestamp ++ "." ++ payload
    let expectedSignature := generateSignature hmac signedPayload secret
    if constantTimeCompare signature expectedSignature then
      { isValid := true, error := none }
    else
      { isValid := false, error := some "Signature verification failed" }

/-- `WebhookSecurity.generateWebhookHeaders` (crypto.ts lines 103-119): a
fresh Unix-seconds timestamp and the hex HMAC of "<timestamp>.<payload>",
returned as the (X-Webhook-Timestamp, X-Webhook-Signature) pair. -/
def generateWebhookHeaders (hmac : String → String → String) (nowSeconds : Nat)
    (payload secret : String) : String × String :=
  let timestamp := natToString nowSeconds
  (timestamp, generateSignature hmac (timestamp ++ "." ++ payload) secret)

/-- A bitwise OR of naturals is zero exactly when both operands are. -/
theorem lor_eq_zero_iff (x y : Nat) : x ||| y = 0 ↔ x = 0 ∧ y = 0 := by
  constructor
  · intro h
    constructor <;> apply Nat.eq_of_testBit_eq <;> intro i <;>
      have hb := congrArg (fun t => Nat.testBit t i) h <;>
      simp only [Nat.testBit_or, Nat.zero_testBit, Bool.or_eq_false_iff] at hb <;>
      simp [hb.1, hb.2]
  · rintro ⟨rfl, rfl⟩
    rfl

/-- Characters with equal code points are equal. -/
theorem char_eq_of_toNat_eq {a b : Char} (h : a.toNat = b.toNat) : a = b :=
  Char.eq_of_val_eq (UInt32.toNat.inj h)

/-- The accumulator of `constantTimeCompare` is zero exactly when it started
at zero and every compared pair of characters agrees. -/
theorem foldl_lor_xor_eq_zero (l : List (Char × Char)) (acc : Nat) :
    (l.foldl (fun r p => r ||| (p.1.toNat ^^^ p.2.toNat)) acc = 0) ↔
      (acc = 0 ∧ ∀ p ∈ l, p.1 = p.2) := by
  induction l generalizing acc with
  | nil => simp
  | cons p l ih =>
    simp only [List.foldl_cons, ih, List.mem_cons]
    constructor
    · rintro ⟨hor, hall⟩
      rcases (lor_eq_zero_iff _ _).1 hor with ⟨ha, hx⟩
      have hpe : p.1 = p.2 := char_eq_of_toNat_eq (Nat.xor_eq_zero.1 hx)
      exact ⟨ha, fun q hq => hq.elim (fun he => he ▸ hpe) (hall q)⟩
    · rintro ⟨ha, hall⟩
      have hpe := hall p (Or.inl rfl)
      refine ⟨?_, fun q hq => hall q (Or.inr hq)⟩
      rw [ha, hpe]
      simp

/-- Lists of equal length whose zipped pairs agree are equal. -/
theorem eq_of_zip_eq : ∀ (xs ys : List Char), xs.length = ys.length →
    (∀ p ∈ xs.zip ys, p.1 = p.2) → xs = ys
  | [], [], _, _ => rfl
  | [], _ :: _, h, _ => by simp at h
  | _ :: _, [], h, _ => by simp at h
  | x :: xs, y :: ys, h, hall => by
    have hxy : x = y := hall (x, y) (by simp)
    have htail : xs = ys :=
      eq_of_zip_eq xs ys (by simpa using h) (fun p hp => hall p (by simp [hp]))
    simp [hxy, htail]

/-- Every pair of a list zipped with itself agrees. -/
theorem zip_self_fst_eq_snd : ∀ (l : List Char), ∀ p ∈ l.zip l, p.1 = p.2
  | [], p, hp => by simp at hp
  | x :: l, p, hp => by
    rcases (by simpa using hp : p = (x, x) ∨ p ∈ l.zip l) with h | h
    · simp [h]
    · exact zip_self_fst_eq_snd l p h

/-- The constant-time comparison accepts exactly the equal strings. -/
theorem constantTimeCompare_iff (a b : String) :
    constantTimeCompare a b = true ↔ a = b := by
  unfold constantTimeCompare
  constructor
  · intro h
    split at h
    · exact absurd h (by simp)
    · rename_i hlen
      have hlen2 : a.data.length = b.data.length := Decidable.of_not_not hlen
      have hzero := eq_of_beq h
      have hall := ((foldl_lor_xor_eq_zero _ 0).1 hzero).2
      have hdata := eq_of_zip_eq a.data b.data hlen2 hall
      cases a
      cases b
      exact congrArg String.mk hdata
  · rintro rfl
    rw [if_neg (by simp)]
    have hz : ((a.data.zip a.data).foldl
        (fun r p => r ||| (p.1.toNat ^^^ p.2.toNat)) 0) = 0 :=
      (foldl_lor_xor_eq_zero _ 0).2 ⟨rfl, zip_self_fst_eq_snd a.data⟩
    simpa using hz

end CBP

namespace CBP

/-- Digit characters are digits. -/
theorem digitChar_isDigit {d : Nat} (h : d < 10) : (digitChar d).isDigit = true := by
  interval_cases d <;> decide

/-- Code point of a digit character. -/
theorem digitChar_toNat {d : Nat} (h : d < 10) : (digitChar d).toNat = 48 + d := by
  interval_cases d <;> decide

/-- Every character printed by `natToCharsAux` is a decimal digit. -/
theorem natToCharsAux_all_digits :
    ∀ fuel n, ∀ c ∈ natToCharsAux fuel n, c.isDigit = true
  | 0, n => by simp [natToCharsAux]
  | fuel + 1, n => by
    intro c hc
    by_cases h : n < 10
    · simp [natToCharsAux, h] at hc
      exact hc ▸ digitChar_isDigit h
    · simp [natToCharsAux, h] at hc
      rcases hc with hc | hc
      · exact natToCharsAux_all_digits fuel (n / 10) c hc
      · exact hc ▸ digitChar_isDigit (Nat.mod_lt n (by omega))

/-- `natToCharsAux` with nonzero fuel prints at least one digit. -/
theorem natToCharsAux_ne_nil (fuel n : Nat) : natToCharsAux (fuel + 1) n ≠ [] := by
  by_cases h : n < 10 <;> simp [natToCharsAux, h]

/-- Folding the decimal-accumulation step of `parseIntJS` over the digits of
`n` recovers `n`. -/
theorem natToCharsAux_foldl :
    ∀ fuel n, n < fuel →
      (natToCharsAux fuel n).foldl (fun acc c => 10 * acc + (c.toNat - 48)) 0 = n
  | 0, n, h => by omega
  | fuel + 1, n, h => by
    by_cases h10 : n < 10
    · simp [natToCharsAux, h10, digitChar_toNat h10]
    · have hd : n / 10 < fuel := by
        have := Nat.div_lt_self (show 0 < n by omega) (show 1 < 10 by omega)
        omega
      have ih := natToCharsAux_foldl fuel (n / 10) hd
      have hmod : n % 10 < 10 := Nat.mod_lt n (by omega)
      simp [natToCharsAux, h10, List.foldl_append, ih, digitChar_toNat hmod]
      omega

/-- `parseIntJS` inverts the timestamp rendering of the header generator. -/
theorem parseIntJS_natToString (n : Nat) : parseIntJS (natToString n) = some n := by
  have hall : ∀ c ∈ natToCharsAux (n + 1) n, Char.isDigit c = true :=
    natToCharsAux_all_digits (n + 1) n
  have htake : (natToCharsAux (n + 1) n).takeWhile Char.isDigit = natToCharsAux (n + 1) n :=
    List.takeWhile_eq_self_iff.mpr hall
  have hne := natToCharsAux_ne_nil n n
  have hfold := natToCharsAux_foldl (n + 1) n (by omega)
  simp [parseIntJS, natToString, htake, hne, hfold]

end CBP

namespace CBP

/-- C5: for every HMAC primitive, payload, secret and Unix-seconds timestamp
`ts`, verifying the signature produced by `generateWebhookHeaders` at time
`ts` (hex HMAC over "<ts>.<payload>") succeeds whenever the verifier's clock
`now` is within the 300-second tolerance; it fails when `now = ts + 301`; and
it fails for any signature string other than the generated one (in
particular, any altered byte). -/
theorem verify_roundtrip_within_tolerance
    (hmac : String → String → String) (payload secret : String) (now ts : Nat) :
    (((now : Int) - (ts : Int)).natAbs ≤ 300 →
      verifySignature hmac now payload
        (generateWebhookHeaders hmac ts payload secret).2 secret
        (generateWebhookHeaders hmac ts payload secret).1 300 =
        { isValid := true, error := none }) ∧
    (now = ts + 301 →
      (verifySignature hmac now payload
        (generateWebhookHeaders hmac ts payload secret).2 secret
        (generateWebhookHeaders hmac ts payload secret).1 300).isValid = false) ∧
    (∀ sig2, sig2 ≠ (generateWebhookHeaders hmac ts payload secret).2 →
      (verifySignature hmac now payload sig2 secret
        (generateWebhookHeaders hmac ts payload secret).1 300).isValid = false) := by
  refine ⟨?_, ?_, ?_⟩
  · intro h
    have hstale : ¬ (300 < ((now : Int) - (ts : Int)).natAbs) := by omega
    simp [verifySignature, generateWebhookHeaders, generateSignature,
      parseIntJS_natToString, hstale, (constantTimeCompare_iff _ _).mpr rfl]
  · intro h
    subst h
    have hstale : 300 < (((ts + 301 : Nat) : Int) - (ts : Int)).natAbs := by
      push_cast
      omega
    simp [verifySignature, generateWebhookHeaders, generateSignature,
      parseIntJS_natToString, hstale]
  · intro sig2 hne
    by_cases hstale : 300 < ((now : Int) - (ts : Int)).natAbs
    · simp [verifySignature, generateWebhookHeaders, generateSignature,
        parseIntJS_natToString, hstale]
    · have hcmp : constantTimeCompare sig2
          (hmac (natToString ts ++ "." ++ payload) secret) = false := by
        rcases hb : constantTimeCompare sig2
            (hmac (natToString ts ++ "." ++ payload) secret) with _ | _
        · rfl
        · exact absurd ((constantTimeCompare_iff _ _).mp hb) hne
      simp [verifySignature, generateWebhookHeaders, generateSignature,
        parseIntJS_natToString, hstale, hcmp]

/-- A stand-in HMAC primitive used to instantiate the signature theorems. -/
def concatHmac : String → String → String := fun p s => p ++ "|" ++ s

/-- Witness for C5 at concrete inputs (clock 50 seconds after signing). -/
theorem verify_roundtrip_within_tolerance_witness :
    (((100 : Nat) : Int) - ((50 : Nat) : Int)).natAbs ≤ 300 ∧
    verifySignature concatHmac 100 "pay"
      (generateWebhookHeaders concatHmac 50 "pay" "sec").2 "sec"
      (generateWebhookHeaders concatHmac 50 "pay" "sec").1 300 =
      { isValid := true, error := none } :=
  ⟨by decide,
   (verify_roundtrip_within_tolerance concatHmac "pay" "sec" 100 50).1 (by decide)⟩

/-- C9: when the timestamp string does not parse to a number (`parseInt`
yields `NaN`), `verifySignature` never rejects for staleness: a signature
correctly computed over "<timestamp>.<payload>" is accepted for every value
of the verifier's clock, so the 300-second replay window is not enforced for
non-numeric timestamps. -/
theorem nonnumeric_timestamp_skips_staleness
    (hmac : String → String → String) (payload secret timestamp : String) (now : Nat)
    (hnan : parseIntJS timestamp = none) :
    verifySignature hmac now payload
      (generateSignature hmac (timestamp ++ "." ++ payload) secret) secret timestamp 300 =
      { isValid := true, error := none } := by
  simp [verifySignature, generateSignature, hnan,
    (constantTimeCompare_iff _ _).mpr rfl]

/-- Witness for C9: the non-numeric timestamp "abc" is accepted with an
arbitrarily old clock. -/
theorem nonnumeric_timestamp_skips_staleness_witness :
    parseIntJS "abc" = none ∧
    verifySignature concatHmac 999999999 "pay"
      (generateSignature concatHmac ("abc" ++ "." ++ "pay") "sec") "sec" "abc" 300 =
      { isValid := true, error := none } :=
  ⟨by decide,
   nonnumeric_timestamp_skips_staleness concatHmac "pay" "sec" "abc" 999999999 (by decide)⟩

end CBP
